import Mathlib

/-!
Shallow embedding of the Forge AI task kernel (forge_kernel.py): the
WebSocket connection registry, the task lifecycle orchestrator, the
system metrics counters, and the real-time message loop, together with
theorems settling the specification claims about them.
-/

namespace Forge

/-- A WebSocket connection handle is modelled as an opaque identifier. -/
abbrev Conn := Nat

/-- `WebSocketManager`: holds the mutable list `active_connections`.
The Python class stores a plain list; we mirror the list, not a set. -/
structure WSManager where
  active_connections : List Conn
  deriving DecidableEq

/-- `WebSocketManager.connect`: accepts and registers a connection by
appending it to `active_connections` (the source performs a plain
`append` with no membership check). -/
def WSManager.connect (m : WSManager) (c : Conn) : WSManager :=
  ⟨m.active_connections ++ [c]⟩

/-- `WebSocketManager.disconnect`: removes the connection if present
(`list.remove` deletes the first occurrence), no-op when absent. -/
def WSManager.disconnect (m : WSManager) (c : Conn) : WSManager :=
  if c ∈ m.active_connections then ⟨m.active_connections.erase c⟩ else m

/-- `WebSocketManager.broadcast`: attempts `send_json` on every
registered connection in order; a send that raises is caught, the
connection collected into `disconnected`, and after the loop each
collected connection is passed to `disconnect`.  The whole operation is
total (never raises to its caller).  `sendOk c` tells whether the send
to `c` succeeds; the second component lists the connections that
actually received the message. -/
def WSManager.broadcast (m : WSManager) (sendOk : Conn → Bool) :
    WSManager × List Conn :=
  let disconnected := m.active_connections.filter (fun c => !sendOk c)
  let delivered := m.active_connections.filter (fun c => sendOk c)
  (disconnected.foldl WSManager.disconnect m, delivered)

/-- `TaskStatus` enum from the source. -/
inductive TaskStatus where
  | pending
  | in_progress
  | completed
  | failed
  deriving DecidableEq

/-- `TaskMetadata` dataclass. -/
structure TaskMetadata where
  client_info : String
  source : String
  tags : List String
  deriving DecidableEq

/-- `Task` dataclass; timestamps are abstract clock readings (`Nat`). -/
structure Task where
  id : String
  description : String
  status : TaskStatus
  agent_id : String
  priority : Int
  created_at : Nat
  updated_at : Nat
  result : Option String
  metadata : TaskMetadata
  deriving DecidableEq

/-- `SystemMetrics` counters (uptime is not needed by any claim). -/
structure SystemMetrics where
  tasks_completed : Nat
  tasks_failed : Nat
  deriving DecidableEq

/-- The orchestrator state: the in-memory task store and the metrics. -/
structure KernelState where
  tasks : List Task
  metrics : SystemMetrics
  deriving DecidableEq

/-- The JSON payload of a POST /tasks request: each field the code reads
with `task_data.get(key, default)` is an optional value. -/
structure TaskPayload where
  description : Option String
  agent_id : Option String
  priority : Option Int
  source : Option String
  tags : Option (List String)
  deriving DecidableEq

/-- The events the orchestrator hands to `ws_manager` while processing a
task, in emission order.  `task_progress` carries the progress fraction
as an exact rational. -/
inductive Event where
  | task_created (t : Task)
  | task_progress (task_id : String) (progress : ℚ) (status : String)
      (current_action : Option String)
  | agent_activity (agent_id : String) (activity : String)
  | task_update (t : Task)
  deriving DecidableEq

/-- Construction of the `Task` object at the top of `_spawn_task`:
status starts at `IN_PROGRESS`, both timestamps are the creation time,
and every payload field falls back to its `get` default. -/
def mk_task (generated_id : String) (t0 : Nat) (payload : TaskPayload)
    (client_info : String) : Task :=
  { id := generated_id
    description := payload.description.getD ""
    status := TaskStatus.in_progress
    agent_id := payload.agent_id.getD "assistant"
    priority := payload.priority.getD 1
    created_at := t0
    updated_at := t0
    result := none
    metadata :=
      { client_info := client_info
        source := payload.source.getD "api"
        tags := payload.tags.getD [] } }

/-- The `agent_activity` broadcast made by the branch chosen on
`task.agent_id` (the final `else` branch broadcasts nothing). -/
def activity_events (aid : String) : List Event :=
  if aid = "assistant" then [Event.agent_activity aid "Bragi is analyzing your task"]
  else if aid = "coordinator" then [Event.agent_activity aid "Odin is coordinating your task"]
  else if aid = "architect" then [Event.agent_activity aid "Thor is architecting your solution"]
  else []

/-- The gateway call made by the branch chosen on `task.agent_id`.
`gw tid d` models `bragi.process_task(task.id, task.description)`:
`ok` is the returned text, `error` the message of a raised exception.
The coordinator and architect branches prefix the successful text; an
exception propagates unchanged out of every branch. -/
def route_agent (aid tid d : String)
    (gw : String → String → Except String String) : Except String String :=
  if aid = "assistant" then gw tid d
  else if aid = "coordinator" then (gw tid d).map (fun r => "Odin's wisdom: " ++ r)
  else if aid = "architect" then (gw tid d).map (fun r => "Thor's guidance: " ++ r)
  else gw tid d

/-- `ForgeKernel._spawn_task`: create the task, append it to the store,
broadcast `task_created` and the 0.1 `task_progress`, run the agent
branch, then on gateway success set `result`/`COMPLETED`/`updated_at`,
bump `tasks_completed` and broadcast the terminal events; on a gateway
exception set `result` to its message, `FAILED`, bump `tasks_failed`
and broadcast the failure events.  Returns the post-state, the final
task object (the same object that sits in the store) and the emitted
events in order. -/
def spawn_task (st : KernelState) (gw : String → String → Except String String)
    (generated_id : String) (t0 t1 : Nat) (payload : TaskPayload)
    (client_info : String) : KernelState × Task × List Event :=
  let task := mk_task generated_id t0 payload client_info
  match route_agent task.agent_id task.id task.description gw with
  | Except.ok result_text =>
      let final : Task :=
        { task with result := some result_text, status := TaskStatus.completed,
                    updated_at := t1 }
      ({ tasks := st.tasks ++ [final]
         metrics :=
           { tasks_completed := st.metrics.tasks_completed + 1
             tasks_failed := st.metrics.tasks_failed } },
       final,
       [Event.task_created task,
        Event.task_progress task.id (1 / 10) "started"
          (some "Initializing task processing")]
       ++ activity_events task.agent_id
       ++ [Event.task_progress task.id 1 "completed"
             (some "Task completed successfully"),
           Event.task_update final])
  | Except.error msg =>
      let final : Task :=
        { task with result := some msg, status := TaskStatus.failed,
                    updated_at := t1 }
      ({ tasks := st.tasks ++ [final]
         metrics :=
           { tasks_completed := st.metrics.tasks_completed
             tasks_failed := st.metrics.tasks_failed + 1 } },
       final,
       [Event.task_created task,
        Event.task_progress task.id (1 / 10) "started"
          (some "Initializing task processing")]
       ++ activity_events task.agent_id
       ++ [Event.task_progress task.id 1 "failed"
             (some ("Task failed: " ++ msg)),
           Event.task_update final])

/-- The role preamble each known agent prepends to a successful gateway
text (empty for the assistant and for unrecognized identifiers). -/
def agent_preamble (aid : String) : String :=
  if aid = "coordinator" then "Odin's wisdom: "
  else if aid = "architect" then "Thor's guidance: "
  else ""

/-- The error raised by an HTTP endpoint. -/
structure HTTPError where
  status_code : Nat
  detail : String
  deriving DecidableEq

/-- The `POST /tasks` handler `create_new_task`: when `BRAGI_AVAILABLE`
is false it raises HTTP 503 before any task is created, leaving the
store untouched and broadcasting nothing; otherwise it runs
`_spawn_task` and returns the resulting task.  The triple is the
post-state, the events broadcast, and the HTTP outcome. -/
def create_new_task (bragiAvailable : Bool) (st : KernelState)
    (gw : String → String → Except String String) (generated_id : String)
    (t0 t1 : Nat) (payload : TaskPayload) (client_info : String) :
    KernelState × List Event × Except HTTPError Task :=
  if bragiAvailable then
    let r := spawn_task st gw generated_id t0 t1 payload client_info
    (r.1, r.2.2, Except.ok r.2.1)
  else
    (st, [],
     Except.error
       ⟨503, "Task processing functionality is unavailable at this moment."⟩)

/-- JSON values, as received by `websocket.receive_json()`. -/
inductive Json where
  | null
  | bool (b : Bool)
  | num (n : Int)
  | str (s : String)
  | arr (elems : List Json)
  | obj (fields : List (String × Json))

/-- Python `isinstance(data, dict) and key in data`. -/
def Json.hasKey : Json → String → Bool
  | Json.obj fields, k => fields.any (fun p => p.1 = k)
  | _, _ => false

/-- Python `data[key]` / `data.get(key)` on a dict (first binding wins,
as dict keys are unique); `none` on a non-dict or a missing key. -/
def Json.get? : Json → String → Option Json
  | Json.obj fields, k => (fields.find? (fun p => p.1 = k)).map Prod.snd
  | _, _ => none

/-- The message-handling line of `websocket_endpoint`: only a dict
containing a `"type"` key produces a broadcast, whose payload is
`data.get("data", {})`. -/
def ws_handle_message (data : Json) : Option (Json × Json) :=
  if data.hasKey "type" then
    some ((data.get? "type").getD Json.null, (data.get? "data").getD (Json.obj []))
  else none

/-- Outcome of one `websocket.receive_json()` call: a parsed value, a
`WebSocketDisconnect`, or any other exception. -/
inductive RecvResult where
  | value (j : Json)
  | disconnected
  | failure

/-- One iteration of the `while True` receive loop: a received value
with a `"type"` key is re-broadcast to every registered connection
(the registry pruned of any connection whose send fails); any other
received value broadcasts nothing; both keep looping.  A disconnect or
an exception breaks the loop.  Returns the registry afterwards, the
broadcasts made, and whether the loop continues. -/
def ws_step (sendOk : Conn → Bool) (m : WSManager) (recv : RecvResult) :
    WSManager × List (Json × Json) × Bool :=
  match recv with
  | RecvResult.value j =>
      match ws_handle_message j with
      | some (t, d) => ((m.broadcast sendOk).1, [(t, d)], true)
      | none => (m, [], true)
  | RecvResult.disconnected => (m, [], false)
  | RecvResult.failure => (m, [], false)


/-! ## Helper lemmas -/

theorem str_empty_append (s : String) : "" ++ s = s := rfl

/-- A gateway exception propagates unchanged out of every agent branch. -/
theorem route_agent_of_error (aid tid d : String)
    (gw : String → String → Except String String) (msg : String)
    (h : gw tid d = Except.error msg) :
    route_agent aid tid d gw = Except.error msg := by
  unfold route_agent
  split_ifs <;> simp [h, Except.map]

/-- On gateway success the branch result is the text with the role
preamble of the selected agent prepended. -/
theorem route_agent_of_ok (aid tid d : String)
    (gw : String → String → Except String String) (r : String)
    (h : gw tid d = Except.ok r) :
    route_agent aid tid d gw = Except.ok (agent_preamble aid ++ r) := by
  by_cases h1 : aid = "assistant"
  · simp [route_agent, agent_preamble, h1, h, str_empty_append]
  · by_cases h2 : aid = "coordinator"
    · simp [route_agent, agent_preamble, h1, h2, h, Except.map]
    · by_cases h3 : aid = "architect"
      · simp [route_agent, agent_preamble, h1, h2, h3, h, Except.map]
      · simp [route_agent, agent_preamble, h1, h2, h3, h, str_empty_append]

/-! ## Claim theorems -/

/-- C6: When the agent gateway is unavailable the submission is rejected
with HTTP 503 at the boundary itself: no Task is created, the task store
is returned unchanged, and no lifecycle event is broadcast. -/
theorem create_new_task_unavailable_rejects (st : KernelState)
    (gw : String → String → Except String String) (gid : String) (t0 t1 : Nat)
    (p : TaskPayload) (ci : String) :
    create_new_task false st gw gid t0 t1 p ci
      = (st, [],
         Except.error
           ⟨503, "Task processing functionality is unavailable at this moment."⟩) := by
  rfl

/-- C7 counterexample: registering the same connection twice is not the
same as registering it once — the list-backed registry appends a
duplicate entry, so the spec claim of idempotent registration is false. -/
theorem connect_not_idempotent_cex :
    ¬ (((WSManager.mk []).connect 0).connect 0 = (WSManager.mk []).connect 0) := by
  decide

/-- C7 amended: `connect` appends unconditionally; registering the same
connection twice produces duplicate membership and a connection count one
larger than registering it once. -/
theorem connect_appends_unconditionally (m : WSManager) (c : Conn) :
    ((m.connect c).connect c).active_connections
        = m.active_connections ++ [c, c] ∧
    ((m.connect c).connect c).active_connections.length
        = (m.connect c).active_connections.length + 1 := by
  simp [WSManager.connect]

/-- C8 counterexample: `disconnect` removes one occurrence at a time, so
on a registry holding a duplicated connection a second `disconnect` is
not a no-op — unrestricted idempotence of unregistration is false. -/
theorem disconnect_not_idempotent_cex :
    ¬ (((WSManager.mk [0, 0]).disconnect 0).disconnect 0
        = (WSManager.mk [0, 0]).disconnect 0) := by
  decide

/-- C8 amended: unregistering a connection that is not in the active set
is a no-op (no error, set and count unchanged); consequently `disconnect`
is idempotent on every duplicate-free registry state. -/
theorem disconnect_absent_noop (m : WSManager) (c : Conn) :
    (c ∉ m.active_connections → m.disconnect c = m) ∧
    (m.active_connections.Nodup →
      (m.disconnect c).disconnect c = m.disconnect c) := by
  constructor
  · intro hc
    simp [WSManager.disconnect, hc]
  · intro hnd
    by_cases hc : c ∈ m.active_connections
    · have h1 : m.disconnect c = ⟨m.active_connections.erase c⟩ := by
        simp [WSManager.disconnect, hc]
      rw [h1]
      have hout : c ∉ m.active_connections.erase c := by
        intro hmem
        exact ((List.Nodup.mem_erase_iff hnd).mp hmem).1 rfl
      simp [WSManager.disconnect, hout]
    · have h1 : m.disconnect c = m := by simp [WSManager.disconnect, hc]
      rw [h1, h1]

/-- C8 witness: on the registry `[1]`, unregistering the absent
connection `0` changes nothing, and a second unregistration is idempotent. -/
theorem disconnect_absent_noop_witness :
    ((0 : Conn) ∉ (WSManager.mk [1]).active_connections ∧
       (WSManager.mk [1]).disconnect 0 = WSManager.mk [1]) ∧
    ((WSManager.mk [1]).active_connections.Nodup ∧
       ((WSManager.mk [1]).disconnect 0).disconnect 0
         = (WSManager.mk [1]).disconnect 0) :=
  ⟨⟨by decide, (disconnect_absent_noop ⟨[1]⟩ 0).1 (by decide)⟩,
   ⟨by decide, (disconnect_absent_noop ⟨[1]⟩ 0).2 (by decide)⟩⟩

/-- C2: broadcasting over a duplicate-free registry in which exactly one
connection fails its send (and broadcast itself is a total operation that
raises nothing) removes exactly the failing connection within the same
call, while every other connection receives the message and remains
registered afterwards. -/
theorem broadcast_single_failure (m : WSManager) (sendOk : Conn → Bool)
    (f : Conn) (hnd : m.active_connections.Nodup)
    (hf : m.active_connections.filter (fun c => !sendOk c) = [f]) :
    (m.broadcast sendOk).1.active_connections = m.active_connections.erase f ∧
    (m.broadcast sendOk).1.active_connections.length + 1
        = m.active_connections.length ∧
    ∀ c ∈ m.active_connections, c ≠ f →
      c ∈ (m.broadcast sendOk).2 ∧
      c ∈ (m.broadcast sendOk).1.active_connections := by
  have hfmem : f ∈ m.active_connections := by
    have hmem : f ∈ m.active_connections.filter (fun c => !sendOk c) := by
      rw [hf]; exact List.mem_singleton_self f
    exact List.mem_of_mem_filter hmem
  have hstate : (m.broadcast sendOk).1 = ⟨m.active_connections.erase f⟩ := by
    simp [WSManager.broadcast, hf, WSManager.disconnect, hfmem]
  refine ⟨by rw [hstate], ?_, ?_⟩
  · rw [hstate]
    have hlen := List.length_erase_of_mem hfmem
    have hpos : 0 < m.active_connections.length := List.length_pos_of_mem hfmem
    simp only [hlen]
    omega
  · intro c hc hne
    have hsend : sendOk c = true := by
      cases hs : sendOk c with
      | true => rfl
      | false =>
          exfalso
          have hcf : c ∈ m.active_connections.filter (fun x => !sendOk x) :=
            List.mem_filter.mpr ⟨hc, by rw [hs]; rfl⟩
          rw [hf] at hcf
          exact hne (List.mem_singleton.mp hcf)
    refine ⟨?_, ?_⟩
    · show c ∈ (m.broadcast sendOk).2
      simp only [WSManager.broadcast]
      exact List.mem_filter.mpr ⟨hc, hsend⟩
    · rw [hstate]
      exact (List.mem_erase_of_ne hne).mpr hc

/-- C2 witness: on the registry `[0, 1, 2]` where only the send to `1`
fails, `1` is pruned and the registry is left as `[0, 2]`. -/
theorem broadcast_single_failure_witness :
    (WSManager.mk [0, 1, 2]).active_connections.Nodup ∧
    (WSManager.mk [0, 1, 2]).active_connections.filter (fun c => !(c != 1)) = [1] ∧
    ((WSManager.mk [0, 1, 2]).broadcast (fun c => c != 1)).1.active_connections
      = (WSManager.mk [0, 1, 2]).active_connections.erase 1 :=
  ⟨by decide, by decide,
   (broadcast_single_failure ⟨[0, 1, 2]⟩ (fun c => c != 1) 1
      (by decide) (by decide)).1⟩


/-- C1: whatever the gateway does — return text or raise — the Task the
submit operation returns carries a terminal status, never `PENDING` or
`IN_PROGRESS`. -/
theorem spawn_task_terminal_status (st : KernelState)
    (gw : String → String → Except String String) (gid : String) (t0 t1 : Nat)
    (p : TaskPayload) (ci : String) :
    (spawn_task st gw gid t0 t1 p ci).2.1.status = TaskStatus.completed ∨
    (spawn_task st gw gid t0 t1 p ci).2.1.status = TaskStatus.failed := by
  rcases hr : route_agent (p.agent_id.getD "assistant") gid
      (p.description.getD "") gw with msg | r <;>
    simp [spawn_task, mk_task, hr]

/-- C3: a gateway exception after task creation makes the task fail with
the exception message stored verbatim as `result`, `updated_at`
refreshed, `tasks_failed` incremented by one with `tasks_completed`
untouched, and the submission still answered with the task rather than a
propagated error. -/
theorem spawn_task_gateway_error (st : KernelState)
    (gw : String → String → Except String String) (gid : String) (t0 t1 : Nat)
    (p : TaskPayload) (ci : String) (msg : String)
    (h : gw gid (p.description.getD "") = Except.error msg) :
    (create_new_task true st gw gid t0 t1 p ci).2.2
        = Except.ok (spawn_task st gw gid t0 t1 p ci).2.1 ∧
    (spawn_task st gw gid t0 t1 p ci).2.1.result = some msg ∧
    (spawn_task st gw gid t0 t1 p ci).2.1.status = TaskStatus.failed ∧
    (spawn_task st gw gid t0 t1 p ci).2.1.updated_at = t1 ∧
    (spawn_task st gw gid t0 t1 p ci).1.metrics.tasks_failed
        = st.metrics.tasks_failed + 1 ∧
    (spawn_task st gw gid t0 t1 p ci).1.metrics.tasks_completed
        = st.metrics.tasks_completed := by
  have hr : route_agent (p.agent_id.getD "assistant") gid
      (p.description.getD "") gw = Except.error msg :=
    route_agent_of_error _ _ _ _ _ h
  refine ⟨by simp [create_new_task], ?_⟩
  simp [spawn_task, mk_task, hr]

/-- C4: a successful gateway call completes the task: `result` holds the
gateway text behind the selected agent preamble, status `COMPLETED`,
`updated_at` refreshed, `tasks_completed` incremented by one and
`tasks_failed` untouched. -/
theorem spawn_task_gateway_ok (st : KernelState)
    (gw : String → String → Except String String) (gid : String) (t0 t1 : Nat)
    (p : TaskPayload) (ci : String) (r : String)
    (h : gw gid (p.description.getD "") = Except.ok r) :
    (spawn_task st gw gid t0 t1 p ci).2.1.result
        = some (agent_preamble (p.agent_id.getD "assistant") ++ r) ∧
    (spawn_task st gw gid t0 t1 p ci).2.1.status = TaskStatus.completed ∧
    (spawn_task st gw gid t0 t1 p ci).2.1.updated_at = t1 ∧
    (spawn_task st gw gid t0 t1 p ci).1.metrics.tasks_completed
        = st.metrics.tasks_completed + 1 ∧
    (spawn_task st gw gid t0 t1 p ci).1.metrics.tasks_failed
        = st.metrics.tasks_failed := by
  have hr : route_agent (p.agent_id.getD "assistant") gid
      (p.description.getD "") gw
        = Except.ok (agent_preamble (p.agent_id.getD "assistant") ++ r) :=
    route_agent_of_ok _ _ _ _ _ h
  simp [spawn_task, mk_task, hr]

/-- C5: every `agent_id` is routed to the gateway rather than rejected;
`"coordinator"` and `"architect"` store the gateway text behind their
role preambles, everything else (the assistant and any unrecognized
identifier) stores the raw text, and the preamble never changes the
resulting status. -/
theorem spawn_task_agent_routing (st : KernelState)
    (gw : String → String → Except String String) (gid : String) (t0 t1 : Nat)
    (p : TaskPayload) (ci : String) (r : String)
    (h : gw gid (p.description.getD "") = Except.ok r) :
    (spawn_task st gw gid t0 t1 p ci).2.1.status = TaskStatus.completed ∧
    (p.agent_id.getD "assistant" = "coordinator" →
      (spawn_task st gw gid t0 t1 p ci).2.1.result
        = some ("Odin's wisdom: " ++ r)) ∧
    (p.agent_id.getD "assistant" = "architect" →
      (spawn_task st gw gid t0 t1 p ci).2.1.result
        = some ("Thor's guidance: " ++ r)) ∧
    (p.agent_id.getD "assistant" ≠ "coordinator" →
      p.agent_id.getD "assistant" ≠ "architect" →
      (spawn_task st gw gid t0 t1 p ci).2.1.result = some r) := by
  have hr : route_agent (p.agent_id.getD "assistant") gid
      (p.description.getD "") gw
        = Except.ok (agent_preamble (p.agent_id.getD "assistant") ++ r) :=
    route_agent_of_ok _ _ _ _ _ h
  refine ⟨?_, ?_, ?_, ?_⟩
  · simp [spawn_task, mk_task, hr]
  · intro hco
    rw [hco] at hr
    simp [spawn_task, mk_task, hco, hr, agent_preamble]
  · intro har
    rw [har] at hr
    simp [spawn_task, mk_task, har, hr, agent_preamble]
  · intro hco har
    simp [spawn_task, mk_task, hr, agent_preamble, hco, har, str_empty_append]

/-- C9: the created task has `updated_at = created_at`; the returned task
keeps `created_at` at the creation instant and carries `updated_at` from
the terminal mutation, so with a monotone clock `updated_at ≥ created_at`
with equality exactly when the processing was instantaneous. -/
theorem spawn_task_timestamps (st : KernelState)
    (gw : String → String → Except String String) (gid : String) (t0 t1 : Nat)
    (p : TaskPayload) (ci : String) (h : t0 ≤ t1) :
    (mk_task gid t0 p ci).updated_at = (mk_task gid t0 p ci).created_at ∧
    (spawn_task st gw gid t0 t1 p ci).2.1.created_at = t0 ∧
    (spawn_task st gw gid t0 t1 p ci).2.1.updated_at = t1 ∧
    (spawn_task st gw gid t0 t1 p ci).2.1.created_at
        ≤ (spawn_task st gw gid t0 t1 p ci).2.1.updated_at ∧
    ((spawn_task st gw gid t0 t1 p ci).2.1.updated_at
        = (spawn_task st gw gid t0 t1 p ci).2.1.created_at ↔ t1 = t0) := by
  rcases hr : route_agent (p.agent_id.getD "assistant") gid
      (p.description.getD "") gw with msg | r <;>
    simp [spawn_task, mk_task, hr, h]

/-! ## Concrete instances used by the witnesses -/

/-- Empty initial kernel state. -/
def st0 : KernelState := ⟨[], ⟨0, 0⟩⟩

/-- A gateway that always answers `"pong"`. -/
def gw_pong : String → String → Except String String :=
  fun _ _ => Except.ok "pong"

/-- A gateway that always answers `"X"`. -/
def gw_x : String → String → Except String String :=
  fun _ _ => Except.ok "X"

/-- A gateway that always raises `"timeout"`. -/
def gw_timeout : String → String → Except String String :=
  fun _ _ => Except.error "timeout"

/-- The submission `{description: "ping", agentId: "assistant"}`. -/
def ping_payload : TaskPayload :=
  ⟨some "ping", some "assistant", none, none, none⟩

/-- A submission addressed to the coordinator agent. -/
def coord_payload : TaskPayload :=
  ⟨some "d", some "coordinator", none, none, none⟩


/-- C3 witness: a gateway raising `"timeout"` yields a failed task with
`result = "timeout"` and the failed counter bumped, answered normally. -/
theorem spawn_task_gateway_error_witness :
    gw_timeout "id0" (ping_payload.description.getD "") = Except.error "timeout" ∧
    ((create_new_task true st0 gw_timeout "id0" 0 1 ping_payload "client").2.2
        = Except.ok (spawn_task st0 gw_timeout "id0" 0 1 ping_payload "client").2.1 ∧
     (spawn_task st0 gw_timeout "id0" 0 1 ping_payload "client").2.1.result
        = some "timeout" ∧
     (spawn_task st0 gw_timeout "id0" 0 1 ping_payload "client").2.1.status
        = TaskStatus.failed ∧
     (spawn_task st0 gw_timeout "id0" 0 1 ping_payload "client").2.1.updated_at = 1 ∧
     (spawn_task st0 gw_timeout "id0" 0 1 ping_payload "client").1.metrics.tasks_failed
        = st0.metrics.tasks_failed + 1 ∧
     (spawn_task st0 gw_timeout "id0" 0 1 ping_payload "client").1.metrics.tasks_completed
        = st0.metrics.tasks_completed) :=
  ⟨rfl, spawn_task_gateway_error st0 gw_timeout "id0" 0 1 ping_payload "client"
          "timeout" rfl⟩

/-- C4 witness: submitting `{description: "ping", agentId: "assistant"}`
against a gateway answering `"pong"` completes the task with result
`"pong"` and bumps the completed counter. -/
theorem spawn_task_gateway_ok_witness :
    gw_pong "id0" (ping_payload.description.getD "") = Except.ok "pong" ∧
    ((spawn_task st0 gw_pong "id0" 0 1 ping_payload "client").2.1.result
        = some (agent_preamble (ping_payload.agent_id.getD "assistant") ++ "pong") ∧
     (spawn_task st0 gw_pong "id0" 0 1 ping_payload "client").2.1.status
        = TaskStatus.completed ∧
     (spawn_task st0 gw_pong "id0" 0 1 ping_payload "client").2.1.updated_at = 1 ∧
     (spawn_task st0 gw_pong "id0" 0 1 ping_payload "client").1.metrics.tasks_completed
        = st0.metrics.tasks_completed + 1 ∧
     (spawn_task st0 gw_pong "id0" 0 1 ping_payload "client").1.metrics.tasks_failed
        = st0.metrics.tasks_failed) ∧
    (spawn_task st0 gw_pong "id0" 0 1 ping_payload "client").2.1.result
        = some "pong" :=
  ⟨rfl, spawn_task_gateway_ok st0 gw_pong "id0" 0 1 ping_payload "client" "pong" rfl,
   by decide⟩

/-- C5 witness: a coordinator submission with gateway text `"X"` stores
`"Odin's wisdom: X"` and still completes. -/
theorem spawn_task_agent_routing_witness :
    gw_x "id0" (coord_payload.description.getD "") = Except.ok "X" ∧
    ((spawn_task st0 gw_x "id0" 0 1 coord_payload "client").2.1.status
        = TaskStatus.completed ∧
     (coord_payload.agent_id.getD "assistant" = "coordinator" →
       (spawn_task st0 gw_x "id0" 0 1 coord_payload "client").2.1.result
          = some ("Odin's wisdom: " ++ "X")) ∧
     (coord_payload.agent_id.getD "assistant" = "architect" →
       (spawn_task st0 gw_x "id0" 0 1 coord_payload "client").2.1.result
          = some ("Thor's guidance: " ++ "X")) ∧
     (coord_payload.agent_id.getD "assistant" ≠ "coordinator" →
       coord_payload.agent_id.getD "assistant" ≠ "architect" →
       (spawn_task st0 gw_x "id0" 0 1 coord_payload "client").2.1.result
          = some "X")) ∧
    (spawn_task st0 gw_x "id0" 0 1 coord_payload "client").2.1.result
        = some "Odin's wisdom: X" :=
  ⟨rfl,
   spawn_task_agent_routing st0 gw_x "id0" 0 1 coord_payload "client" "X" rfl,
   by decide⟩

/-- C9 witness: with creation instant 1 and terminal instant 2 the
returned task satisfies all the timestamp facts. -/
theorem spawn_task_timestamps_witness :
    (1 : Nat) ≤ 2 ∧
    ((mk_task "id0" 1 ping_payload "client").updated_at
        = (mk_task "id0" 1 ping_payload "client").created_at ∧
     (spawn_task st0 gw_pong "id0" 1 2 ping_payload "client").2.1.created_at = 1 ∧
     (spawn_task st0 gw_pong "id0" 1 2 ping_payload "client").2.1.updated_at = 2 ∧
     (spawn_task st0 gw_pong "id0" 1 2 ping_payload "client").2.1.created_at
        ≤ (spawn_task st0 gw_pong "id0" 1 2 ping_payload "client").2.1.updated_at ∧
     ((spawn_task st0 gw_pong "id0" 1 2 ping_payload "client").2.1.updated_at
        = (spawn_task st0 gw_pong "id0" 1 2 ping_payload "client").2.1.created_at
        ↔ (2 : Nat) = 1)) :=
  ⟨by decide,
   spawn_task_timestamps st0 gw_pong "id0" 1 2 ping_payload "client" (by decide)⟩

/-- C10: a received value without a `"type"` key (any non-dict included)
triggers no broadcast, leaves the registry — hence the sender's own
registration — untouched and keeps the loop running; every broadcast the
loop makes comes from a dict with a `"type"` key, and a missing
`"data"` field defaults to the empty object. -/
theorem ws_step_requires_type_key (j : Json) (sendOk : Conn → Bool)
    (m : WSManager) :
    (j.hasKey "type" = false →
      ws_step sendOk m (RecvResult.value j) = (m, [], true)) ∧
    ((ws_step sendOk m (RecvResult.value j)).2.1 ≠ [] →
      j.hasKey "type" = true) ∧
    (j.hasKey "type" = true →
      (ws_step sendOk m (RecvResult.value j)).2.1
        = [((j.get? "type").getD Json.null,
            (j.get? "data").getD (Json.obj []))]) := by
  by_cases hk : j.hasKey "type" = true
  · refine ⟨?_, ?_, ?_⟩
    · intro hfalse
      rw [hk] at hfalse
      exact Bool.noConfusion hfalse
    · intro _
      exact hk
    · intro _
      simp [ws_step, ws_handle_message, hk]
  · have hk2 : j.hasKey "type" = false := by
      simpa using hk
    refine ⟨?_, ?_, ?_⟩
    · intro _
      simp [ws_step, ws_handle_message, hk2]
    · intro hne
      exfalso
      apply hne
      simp [ws_step, ws_handle_message, hk2]
    · intro htrue
      rw [hk2] at htrue
      exact Bool.noConfusion htrue

/-- C10 witness: the dict with single key `"x"` has no `"type"` key, so
one loop iteration broadcasts nothing, keeps registry `[5]` intact and
continues. -/
theorem ws_step_requires_type_key_witness :
    Json.hasKey (Json.obj [("x", Json.null)]) "type" = false ∧
    ws_step (fun _ => true) ⟨[5]⟩
        (RecvResult.value (Json.obj [("x", Json.null)]))
      = (⟨[5]⟩, [], true) :=
  ⟨rfl,
   (ws_step_requires_type_key (Json.obj [("x", Json.null)])
      (fun _ => true) ⟨[5]⟩).1 rfl⟩

end Forge
